import Mathlib

/-!
Verification of the w3af-api-client connection layer
(`w3af_api_client/connection.py`) against its specification.

The Python module is shallowly embedded: the parsed-JSON universe is an
inductive type, Python exceptions become an error type, the HTTP transport
(the external `requests` session) is a function parameter from wire calls to
wire outcomes, and every fallible operation returns `Except`.  `send_request`
additionally returns the list of wire calls it performed, so that claims about
"no network activity" and "no request body transmitted" are statable.
-/

/-- Parsed JSON values, the result of `response.json()` / argument of
`json.dumps`.  Numbers are modelled as integers (the payloads this client
handles — ids, status codes, version strings — are integral or strings). -/
inductive Json where
  | null : Json
  | bool : Bool → Json
  | num : Int → Json
  | str : String → Json
  | arr : List Json → Json
  | obj : List (String × Json) → Json

/-- Python exceptions that can escape the embedded functions.
`APIException`, `BadRequestException`, `ForbiddenException` and
`NotFoundException` are this repository's error taxonomy.  Modelled from the
spec: `w3af_api_client/utils/exceptions.py` is not under `src/`; the spec
(§4.2) describes four distinguishable kinds, each constructed from the
message it carries.  The three mapped kinds carry whatever value the code
passed (`exception_klass(error)` receives the raw JSON `message` value), so
their payload is `Json`.  `valueError`, `attributeError`, `keyError` and
`typeError` model the corresponding Python builtins, and `requestException`
models any transport-level exception raised by the external `requests`
library (DNS failure, connection refused, timeout). -/
inductive PyExn where
  | apiException : String → PyExn
  | badRequestException : Json → PyExn
  | forbiddenException : Json → PyExn
  | notFoundException : Json → PyExn
  | valueError : String → PyExn
  | attributeError : String → PyExn
  | keyError : String → PyExn
  | typeError : String → PyExn
  | requestException : String → PyExn

/-- Modelled from the spec: `w3af_api_client/utils/constants.py` is not under
`src/`; the spec (§4.3) only requires an issue-tracking URL referenced in
protocol-anomaly messages. -/
def ISSUE_URL : String := "https://github.com/andresriancho/w3af/issues"

/-- `API_EXCEPTIONS` dictionary (connection.py lines 29-31): maps the three
handled HTTP status codes to the exception class raised for them. -/
def API_EXCEPTIONS (code : Nat) : Option (Json → PyExn) :=
  if code = 400 then some PyExn.badRequestException
  else if code = 403 then some PyExn.forbiddenException
  else if code = 404 then some PyExn.notFoundException
  else none

/-- Python `type(v).__name__` for parsed-JSON values, used in the messages of
`AttributeError` / `TypeError`. -/
def pyTypeName : Json → String
  | Json.null => "NoneType"
  | Json.bool _ => "bool"
  | Json.num _ => "int"
  | Json.str _ => "str"
  | Json.arr _ => "list"
  | Json.obj _ => "dict"

/-- Association-list lookup on the fields of a parsed JSON object, i.e. what
a Python `dict` built by `json.loads` answers for a key. -/
def lookupField : List (String × Json) → String → Option Json
  | [], _ => none
  | kv :: rest, key => if kv.1 = key then some kv.2 else lookupField rest key

/-- Python `d.get(key, None)` combined with the `is not None` test the code
performs on the result: a key bound to JSON `null` is stored as Python `None`,
so it is indistinguishable from an absent key. -/
def pyGetOrNone (fields : List (String × Json)) (key : String) : Option Json :=
  match lookupField fields key with
  | some Json.null => none
  | some v => some v
  | none => none

/-- Python `container[key]` for a string key: a `dict` answers the stored
value or raises `KeyError`; any other parsed-JSON value raises `TypeError`. -/
def pyIndex (j : Json) (key : String) : Except PyExn Json :=
  match j with
  | Json.obj fs =>
    match lookupField fs key with
    | some v => Except.ok v
    | none => Except.error (PyExn.keyError key)
  | _ =>
    Except.error (PyExn.typeError
      ("\x27" ++ pyTypeName j ++ "\x27 object is not subscriptable"))

/-- Python iteration (`for x in v`) over a parsed-JSON value: lists yield
their elements, dicts their keys, strings their characters; scalars raise
`TypeError`. -/
def pyIterate (j : Json) : Except PyExn (List Json) :=
  match j with
  | Json.arr xs => Except.ok xs
  | Json.obj fs => Except.ok (fs.map (fun kv => Json.str kv.1))
  | Json.str s => Except.ok (s.toList.map (fun c => Json.str (String.mk [c])))
  | _ =>
    Except.error (PyExn.typeError
      ("\x27" ++ pyTypeName j ++ "\x27 object is not iterable"))

/-- Whether the character list `pat` is a prefix of `s` (by decidable
character equality). -/
def listIsPre : List Char → List Char → Bool
  | [], _ => true
  | _ :: _, [] => false
  | a :: as, b :: bs => if a = b then listIsPre as bs else false

/-- Whether the character list `pat` occurs contiguously inside `s`. -/
def listHasInf (pat : List Char) : List Char → Bool
  | [] => listIsPre pat []
  | s :: rest => if listIsPre pat (s :: rest) then true else listHasInf pat rest

/-- Substring containment on strings, used to state "the message contains X". -/
def strContains (s pat : String) : Bool :=
  listHasInf pat.data s.data

/-- Python `key in v` (membership test) on a parsed-JSON value: dicts test key
presence, lists test element membership, strings test substring containment;
scalars raise `TypeError`.  Used by `can_access_api` for `'version' in
version_dict`. -/
def pyContains (j : Json) (key : String) : Except PyExn Bool :=
  match j with
  | Json.obj fs => Except.ok (fs.any (fun kv => kv.1 = key))
  | Json.arr xs =>
    Except.ok (xs.any (fun x =>
      match x with
      | Json.str s => s = key
      | _ => false))
  | Json.str s => Except.ok (strContains s key)
  | _ =>
    Except.error (PyExn.typeError
      ("argument of type \x27" ++ pyTypeName j ++ "\x27 is not iterable"))

/-- Minimal JSON string escaping (backslash, quote and the common control
characters); payloads in this development are plain ASCII text. -/
def jsonEscape (s : String) : String :=
  String.join (s.data.map (fun c =>
    if c = '\\' then "\\\\"
    else if c = '\"' then "\\\""
    else if c = '\n' then "\\n"
    else if c = '\t' then "\\t"
    else if c = '\r' then "\\r"
    else String.mk [c]))

mutual
/-- Python `json.dumps(v)` with the default compact separators, used to
serialize the outgoing POST body. -/
def Json.dumps : Json → String
  | Json.null => "null"
  | Json.bool true => "true"
  | Json.bool false => "false"
  | Json.num n => toString n
  | Json.str s => "\"" ++ jsonEscape s ++ "\""
  | Json.arr [] => "[]"
  | Json.arr (x :: xs) => "[" ++ Json.dumps x ++ dumpsArrRest xs ++ "]"
  | Json.obj [] => "\x7b\x7d"
  | Json.obj (kv :: fs) =>
    "\x7b" ++ "\"" ++ jsonEscape kv.1 ++ "\": " ++ Json.dumps kv.2 ++
      dumpsObjRest fs ++ "\x7d"

def dumpsArrRest : List Json → String
  | [] => ""
  | x :: xs => ", " ++ Json.dumps x ++ dumpsArrRest xs

def dumpsObjRest : List (String × Json) → String
  | [] => ""
  | kv :: fs =>
    ", " ++ "\"" ++ jsonEscape kv.1 ++ "\": " ++ Json.dumps kv.2 ++
      dumpsObjRest fs
end

/-- Indentation padding used by `json.dumps(v, indent=4)`. -/
def pad (lvl : Nat) : String :=
  String.mk (List.replicate (4 * lvl) ' ')

mutual
/-- Python `json.dumps(v, indent=4)`, used by the code to pretty-print a JSON
body into protocol-anomaly messages. -/
def Json.dumpsIndent : Json → Nat → String
  | Json.null, _ => "null"
  | Json.bool true, _ => "true"
  | Json.bool false, _ => "false"
  | Json.num n, _ => toString n
  | Json.str s, _ => "\"" ++ jsonEscape s ++ "\""
  | Json.arr [], _ => "[]"
  | Json.arr (x :: xs), lvl =>
    "[\n" ++ pad (lvl + 1) ++ Json.dumpsIndent x (lvl + 1) ++
      dumpsIndentArrRest xs (lvl + 1) ++ "\n" ++ pad lvl ++ "]"
  | Json.obj [], _ => "\x7b\x7d"
  | Json.obj (kv :: fs), lvl =>
    "\x7b\n" ++ pad (lvl + 1) ++ "\"" ++ jsonEscape kv.1 ++ "\": " ++
      Json.dumpsIndent kv.2 (lvl + 1) ++ dumpsIndentObjRest fs (lvl + 1) ++
      "\n" ++ pad lvl ++ "\x7d"

def dumpsIndentArrRest : List Json → Nat → String
  | [], _ => ""
  | x :: xs, lvl =>
    ",\n" ++ pad lvl ++ Json.dumpsIndent x lvl ++ dumpsIndentArrRest xs lvl

def dumpsIndentObjRest : List (String × Json) → Nat → String
  | [], _ => ""
  | kv :: fs, lvl =>
    ",\n" ++ pad lvl ++ "\"" ++ jsonEscape kv.1 ++ "\": " ++
      Json.dumpsIndent kv.2 lvl ++ dumpsIndentObjRest fs lvl
end

mutual
/-- Python `repr` of a parsed-JSON (i.e. `json.loads`-produced) value, which
is what `str(e)` yields when an exception carries a non-string payload. -/
def Json.pyRepr : Json → String
  | Json.null => "None"
  | Json.bool true => "True"
  | Json.bool false => "False"
  | Json.num n => toString n
  | Json.str s => "\x27" ++ s ++ "\x27"
  | Json.arr [] => "[]"
  | Json.arr (x :: xs) => "[" ++ Json.pyRepr x ++ pyReprArrRest xs ++ "]"
  | Json.obj [] => "\x7b\x7d"
  | Json.obj (kv :: fs) =>
    "\x7b" ++ "\x27" ++ kv.1 ++ "\x27: " ++ Json.pyRepr kv.2 ++
      pyReprObjRest fs ++ "\x7d"

def pyReprArrRest : List Json → String
  | [] => ""
  | x :: xs => ", " ++ Json.pyRepr x ++ pyReprArrRest xs

def pyReprObjRest : List (String × Json) → String
  | [] => ""
  | kv :: fs =>
    ", " ++ "\x27" ++ kv.1 ++ "\x27: " ++ Json.pyRepr kv.2 ++ pyReprObjRest fs
end

/-- Python `str(e)` for the exceptions of this development: an exception
constructed from a single argument stringifies to that argument. -/
def PyExn.toStr : PyExn → String
  | PyExn.apiException m => m
  | PyExn.badRequestException j => j.pyRepr
  | PyExn.forbiddenException j => j.pyRepr
  | PyExn.notFoundException j => j.pyRepr
  | PyExn.valueError m => m
  | PyExn.attributeError m => m
  | PyExn.keyError m => "\x27" ++ m ++ "\x27"
  | PyExn.typeError m => m
  | PyExn.requestException m => m

/-- One invocation of the underlying HTTP session (`session.get`,
`session.delete` or `session.post` in `send_request`): the HTTP method, the
full URL, the serialized request body (`None` for GET/DELETE, which transmit
no body) and the per-call timeout. -/
structure WireCall where
  method : String
  url : String
  data : Option String
  timeout : Nat

/-- A `requests` response as `send_request` observes it: the numeric status
code, the raw body (`response.content`, modelled as ASCII text) and the
outcome of `response.json()` — `some` parsed value, or `none` when the body
is not valid JSON and `response.json()` raises `ValueError`. -/
structure Response where
  status_code : Nat
  content : String
  jsonResult : Option Json

/-- Outcome of one wire invocation: either a response arrived, or the
external `requests` library raised a transport-level exception (DNS failure,
connection refused, timeout) with the given description. -/
inductive TransportResult where
  | ok : Response → TransportResult
  | exn : String → TransportResult

/-- The transport is a stub: a function from the wire call the code performs
to the outcome of that invocation. -/
def Transport : Type := WireCall → TransportResult

/-- A transport that answers every invocation with the same response, the
stub server of the spec's end-to-end scenarios. -/
def stubTransport (r : Response) : Transport := fun _ => TransportResult.ok r

/-- Models `requests.compat.urljoin` from the external `requests` library.
The claims under verification never inspect the joined URL — only that it is
a function of the base URL and the path — so the RFC 3986 resolution
performed by the external library is abstracted as concatenation. -/
def urljoin (base path : String) : String := base ++ path

/-- The message of the `APIException` raised when the response body is not
valid JSON (connection.py lines 128-131). -/
def nonJsonMsg (content : String) : String :=
  "REST API service did not return JSON, if this issue persists please" ++
    " create an issue in the w3af framework repository at " ++ ISSUE_URL ++
    ". The response body starts with: \"" ++ content.take 20 ++ "\""

/-- The message of the `APIException` raised when a mapped status code
arrives without a usable `message` attribute (connection.py lines 147-152). -/
def missingMessageMsg (code : Nat) (body : Json) : String :=
  "REST API service did not return the expected \"message\" attribute for" ++
    " the " ++ toString code ++ " response. Please create a new issue in" ++
    " the w3af framework repository at " ++ ISSUE_URL ++
    " with this JSON data:\n\n" ++ body.dumpsIndent 0

/-- The part of `send_request` that runs once a response has arrived
(connection.py lines 125-155): parse the body as JSON (wrapping a parse
failure into `APIException`), then classify the status code — a mapped code
extracts `message` from the body and raises the mapped exception when it is
present, an `APIException` with the status code and a dump of the body when
it is not (`json_data.get` raises `AttributeError` when the body is not an
object); any unmapped code returns `(status_code, parsed_body)`. -/
def handle_response (response : Response) : Except PyExn (Nat × Json) :=
  match response.jsonResult with
  | none => Except.error (PyExn.apiException (nonJsonMsg response.content))
  | some body =>
    match API_EXCEPTIONS response.status_code with
    | none => Except.ok (response.status_code, body)
    | some exception_klass =>
      match body with
      | Json.obj fields =>
        match pyGetOrNone fields "message" with
        | some error => Except.error (exception_klass error)
        | none =>
          Except.error (PyExn.apiException
            (missingMessageMsg response.status_code body))
      | _ =>
        Except.error (PyExn.attributeError
          ("\x27" ++ pyTypeName body ++ "\x27 object has no attribute" ++
            " \x27get\x27"))

/-- Perform one wire invocation and run `handle_response` on its outcome; a
transport-level exception propagates as `requestException` (the source has no
handler around `session.get`/`delete`/`post`).  The second component records
the wire calls performed. -/
def handle_wire (transport : Transport) (call : WireCall) :
    Except PyExn (Nat × Json) × List WireCall :=
  match transport call with
  | TransportResult.exn desc =>
    (Except.error (PyExn.requestException desc), [call])
  | TransportResult.ok response => (handle_response response, [call])

/-- `Connection.send_request` (connection.py lines 108-155).  `api_url` and
`timeout` stand for `self.api_url` and `self.timeout`; `transport` stands for
`self.session`.  The result pairs the Python outcome (returned value or
raised exception) with the list of wire invocations performed. -/
def send_request (transport : Transport) (api_url : String) (timeout : Nat)
    (path : String) (json_data : Option Json) (method : String) :
    Except PyExn (Nat × Json) × List WireCall :=
  let full_url := urljoin api_url path
  if method = "GET" then
    handle_wire transport ⟨"GET", full_url, none, timeout⟩
  else if method = "DELETE" then
    handle_wire transport ⟨"DELETE", full_url, none, timeout⟩
  else if method = "POST" then
    handle_wire transport
      ⟨"POST", full_url, some (Json.dumps (json_data.getD Json.null)), timeout⟩
  else
    (Except.error (PyExn.valueError
      ("Invalid HTTP method: \"" ++ method ++ "\"")), [])

/-- `Connection.get_version` (connection.py lines 71-73): issue the version
request and return only the parsed body, discarding the status code. -/
def get_version (transport : Transport) (api_url : String) (timeout : Nat) :
    Except PyExn Json :=
  match (send_request transport api_url timeout "/version" none "GET").1 with
  | Except.error e => Except.error e
  | Except.ok x => Except.ok x.2

/-- `Connection.can_access_api` (connection.py lines 45-69): any exception
from the version request is wrapped into an `APIException` embedding
`str(e)`; otherwise `'version' in version_dict` decides between returning
`True` and raising an `APIException`. -/
def can_access_api (transport : Transport) (api_url : String)
    (timeout : Nat) : Except PyExn Bool :=
  match get_version transport api_url timeout with
  | Except.error e =>
    Except.error (PyExn.apiException
      ("An exception was raised when connecting to REST API: \"" ++
        e.toStr ++ "\""))
  | Except.ok version_dict =>
    match pyContains version_dict "version" with
    | Except.error e => Except.error e
    | Except.ok true => Except.ok true
    | Except.ok false =>
      Except.error (PyExn.apiException
        "Unexpected HTTP response when connecting to REST API")

/-- The `Connection` object as far as the claims observe it.  `set_verbose`
(logging configuration) and `configure_requests` (default headers and TLS
flag on the external session object) only produce side effects on external
state and are not modelled. -/
structure Connection where
  api_url : String
  timeout : Nat

/-- `Connection.__init__` (connection.py lines 36-43): store the
configuration, then run `can_access_api`; any exception it raises aborts
construction, so a `Connection` value exists only when the handshake
succeeded. -/
def Connection.init (transport : Transport) (api_url : String)
    (timeout : Nat) : Except PyExn Connection :=
  match can_access_api transport api_url timeout with
  | Except.error e => Except.error e
  | Except.ok _ => Except.ok ⟨api_url, timeout⟩

/-- A scan handle.  Modelled from the spec: `w3af_api_client/scan.py` is not
under `src/`; the spec (§3, §4.5) describes a resource handle holding the
identifier and status taken from one listing descriptor (plus a non-owning
back-reference to the connection, not modelled). -/
structure Scan where
  scan_id : Json
  status : Json

/-- The loop of `get_scans` (connection.py lines 172-177): for each
descriptor, read `scan_json['id']` and `scan_json['status']` (Python
indexing, so a missing key raises `KeyError` and a non-dict descriptor raises
`TypeError`) and build the `Scan` handles in order. -/
def buildScans : List Json → Except PyExn (List Scan)
  | [] => Except.ok []
  | scan_json :: rest =>
    match pyIndex scan_json "id" with
    | Except.error e => Except.error e
    | Except.ok sid =>
      match pyIndex scan_json "status" with
      | Except.error e => Except.error e
      | Except.ok sstatus =>
        match buildScans rest with
        | Except.error e => Except.error e
        | Except.ok tail => Except.ok (⟨sid, sstatus⟩ :: tail)

/-- `Connection.get_scans` (connection.py lines 157-179): GET the collection
path; a non-200 status raises `APIException` with the code in the message;
`data.get('items', None)` yielding `None` raises `APIException` (and a
non-dict body raises `AttributeError`); otherwise iterate over the items
building one `Scan` handle per descriptor. -/
def get_scans (transport : Transport) (api_url : String) (timeout : Nat) :
    Except PyExn (List Scan) :=
  match (send_request transport api_url timeout "/scans/" none "GET").1 with
  | Except.error e => Except.error e
  | Except.ok (code, data) =>
    if code ≠ 200 then
      Except.error (PyExn.apiException
        ("Failed to retrieve scans. Unexpected code " ++ toString code))
    else
      match data with
      | Json.obj fields =>
        match pyGetOrNone fields "items" with
        | none =>
          Except.error (PyExn.apiException
            "Failed to retrieve scans, no \"items\" in JSON.")
        | some scans =>
          match pyIterate scans with
          | Except.error e => Except.error e
          | Except.ok scanList => buildScans scanList
      | _ =>
        Except.error (PyExn.attributeError
          ("\x27" ++ pyTypeName data ++ "\x27 object has no attribute" ++
            " \x27get\x27"))

/-! Helper lemmas. -/

lemma listIsPre_self_append (p t : List Char) : listIsPre p (p ++ t) = true := by
  induction p with
  | nil => simp [listIsPre]
  | cons a as ih => simp [listIsPre, ih]

lemma listHasInf_of_isPre (p s : List Char) (h : listIsPre p s = true) :
    listHasInf p s = true := by
  cases s with
  | nil => simpa [listHasInf] using h
  | cons c cs => simp [listHasInf, h]

lemma listHasInf_self_append (p t : List Char) :
    listHasInf p (p ++ t) = true :=
  listHasInf_of_isPre _ _ (listIsPre_self_append p t)

lemma listHasInf_self (p : List Char) : listHasInf p p = true := by
  simpa using listHasInf_self_append p []

lemma listHasInf_append_left (a p s : List Char)
    (h : listHasInf p s = true) : listHasInf p (a ++ s) = true := by
  induction a with
  | nil => simpa
  | cons c cs ih =>
    simp only [List.cons_append, listHasInf]
    cases hc : listIsPre p (c :: (cs ++ s)) with
    | true => simp
    | false => simpa [hc] using ih

lemma listIsPre_extend (p a s : List Char) (h : listIsPre p a = true) :
    listIsPre p (a ++ s) = true := by
  induction p generalizing a with
  | nil => simp [listIsPre]
  | cons c cs ih =>
    cases a with
    | nil => simp [listIsPre] at h
    | cons b bs =>
      simp only [listIsPre, List.cons_append] at h ⊢
      by_cases hc : c = b
      · simp only [hc, if_pos rfl] at h ⊢
        exact ih bs h
      · simp [hc] at h

lemma listIsPre_nil_iff (p : List Char) (h : listIsPre p [] = true) :
    p = [] := by
  cases p with
  | nil => rfl
  | cons c cs => simp [listIsPre] at h

lemma listHasInf_nil_pat (s : List Char) : listHasInf [] s = true := by
  cases s <;> simp [listHasInf, listIsPre]

lemma listHasInf_append_right (a p s : List Char)
    (h : listHasInf p a = true) : listHasInf p (a ++ s) = true := by
  induction a with
  | nil =>
    have hp : p = [] := listIsPre_nil_iff p (by simpa [listHasInf] using h)
    subst hp
    simpa using listHasInf_nil_pat s
  | cons c cs ih =>
    simp only [List.cons_append, listHasInf] at h ⊢
    by_cases hc : listIsPre p (c :: cs) = true
    · have := listIsPre_extend p (c :: cs) s hc
      simp only [List.cons_append] at this
      simp [this]
    · simp only [Bool.not_eq_true] at hc
      rw [hc] at h
      simp only [Bool.false_eq_true, if_false] at h
      have hr := ih h
      cases hg : listIsPre p (c :: (cs ++ s)) <;> simp [hg, hr]

lemma pyGetOrNone_eq_some (fields : List (String × Json)) (key : String)
    (v : Json) (hv : lookupField fields key = some v) (hnn : v ≠ Json.null) :
    pyGetOrNone fields key = some v := by
  unfold pyGetOrNone
  rw [hv]
  cases v with
  | null => exact absurd rfl hnn
  | bool b => rfl
  | num n => rfl
  | str s => rfl
  | arr xs => rfl
  | obj fs => rfl

lemma pyGetOrNone_eq_none_of_absent (fields : List (String × Json))
    (key : String) (hv : lookupField fields key = none) :
    pyGetOrNone fields key = none := by
  unfold pyGetOrNone
  rw [hv]

lemma pyGetOrNone_eq_none_of_null (fields : List (String × Json))
    (key : String) (hv : lookupField fields key = some Json.null) :
    pyGetOrNone fields key = none := by
  unfold pyGetOrNone
  rw [hv]

lemma handle_wire_calls (t : Transport) (c : WireCall) :
    (handle_wire t c).2 = [c] := by
  unfold handle_wire
  cases t c <;> rfl

lemma nonJsonMsg_contains_take (c : String) :
    strContains (nonJsonMsg c) (c.take 20) = true := by
  simp only [nonJsonMsg, strContains, String.data_append]
  apply listHasInf_append_right
  apply listHasInf_append_left
  exact listHasInf_self _

lemma nonJsonMsg_contains_url (c : String) :
    strContains (nonJsonMsg c) ISSUE_URL = true := by
  simp only [nonJsonMsg, strContains, String.data_append]
  apply listHasInf_append_right
  apply listHasInf_append_right
  apply listHasInf_append_right
  apply listHasInf_append_left
  exact listHasInf_self _

lemma missingMessageMsg_contains_code (code : Nat) (body : Json) :
    strContains (missingMessageMsg code body) (toString code) = true := by
  simp only [missingMessageMsg, strContains, String.data_append]
  apply listHasInf_append_right
  apply listHasInf_append_right
  apply listHasInf_append_right
  apply listHasInf_append_right
  apply listHasInf_append_right
  apply listHasInf_append_left
  exact listHasInf_self _

lemma missingMessageMsg_contains_dump (code : Nat) (body : Json) :
    strContains (missingMessageMsg code body) (body.dumpsIndent 0) = true := by
  simp only [missingMessageMsg, strContains, String.data_append]
  apply listHasInf_append_left
  exact listHasInf_self _

/-! Claim theorems. -/

/-- C7: for every method value outside GET, POST and DELETE, `send_request`
fails with the local "invalid method" `ValueError` before any network
activity occurs — the list of wire invocations is empty, so no remote state
is touched. -/
theorem send_request_invalid_method_no_network (transport : Transport)
    (api_url : String) (timeout : Nat) (path : String)
    (json_data : Option Json) (method : String)
    (hg : method ≠ "GET") (hd : method ≠ "DELETE") (hp : method ≠ "POST") :
    send_request transport api_url timeout path json_data method =
      (Except.error (PyExn.valueError
        ("Invalid HTTP method: \"" ++ method ++ "\"")), []) := by
  simp [send_request, hg, hd, hp]

/-- Witness for C7 at method `PUT`. -/
theorem send_request_invalid_method_no_network_witness :
    send_request (stubTransport ⟨200, "", some Json.null⟩)
        "http://127.0.0.1:5000/" 5 "/scans/" none "PUT" =
      (Except.error (PyExn.valueError
        ("Invalid HTTP method: \"" ++ "PUT" ++ "\"")), []) :=
  send_request_invalid_method_no_network _ _ _ _ _ _
    (by decide) (by decide) (by decide)

/-- C10: for GET and DELETE, a supplied JSON body is silently ignored — the
outcome (result and wire calls) is identical to the call without a body, and
every wire invocation performed transmits no request body. -/
theorem send_request_get_delete_ignores_body (transport : Transport)
    (api_url : String) (timeout : Nat) (path : String)
    (json_data : Option Json) (method : String)
    (h : method = "GET" ∨ method = "DELETE") :
    send_request transport api_url timeout path json_data method =
      send_request transport api_url timeout path none method ∧
    ∀ c ∈ (send_request transport api_url timeout path json_data method).2,
      c.data = none := by
  rcases h with h | h <;> subst h <;>
    exact ⟨rfl, by simp [send_request, handle_wire_calls]⟩

/-- Witness for C10: GET with a body behaves as GET without one. -/
theorem send_request_get_delete_ignores_body_witness :
    (send_request (stubTransport ⟨200, "", some Json.null⟩)
        "http://127.0.0.1:5000/" 5 "/scans/" (some (Json.num 7)) "GET" =
      send_request (stubTransport ⟨200, "", some Json.null⟩)
        "http://127.0.0.1:5000/" 5 "/scans/" none "GET") ∧
    ∀ c ∈ (send_request (stubTransport ⟨200, "", some Json.null⟩)
        "http://127.0.0.1:5000/" 5 "/scans/" (some (Json.num 7)) "GET").2,
      c.data = none :=
  send_request_get_delete_ignores_body _ _ _ _ _ _ (Or.inl rfl)

/-- C4: for every response whose status code is not 400, 403 or 404 and whose
body parses as valid JSON — including all 2xx codes and unmapped server
errors such as 500 — `send_request` raises nothing and returns the pair of
the status code and the parsed body. -/
theorem send_request_unmapped_status_returns (api_url : String)
    (timeout : Nat) (path : String) (json_data : Option Json)
    (method : String) (sc : Nat) (content : String) (body : Json)
    (hm : method = "GET" ∨ method = "DELETE" ∨ method = "POST")
    (h400 : sc ≠ 400) (h403 : sc ≠ 403) (h404 : sc ≠ 404) :
    (send_request (stubTransport ⟨sc, content, some body⟩) api_url timeout
        path json_data method).1 = Except.ok (sc, body) := by
  rcases hm with h | h | h <;> subst h <;>
    simp [send_request, handle_wire, stubTransport, handle_response,
      API_EXCEPTIONS, h400, h403, h404]

/-- Witness for C4: the spec's end-to-end scenario 4, an unmapped 500. -/
theorem send_request_unmapped_status_returns_witness :
    (send_request
        (stubTransport ⟨500, "", some (Json.obj [("error", Json.str "x")])⟩)
        "http://127.0.0.1:5000/" 5 "/scans/" none "GET").1 =
      Except.ok (500, Json.obj [("error", Json.str "x")]) :=
  send_request_unmapped_status_returns _ _ _ _ _ _ _ _
    (Or.inl rfl) (by decide) (by decide) (by decide)

/-- C1: for every response with status code 400, 403 or 404 whose parsed
JSON body is an object binding `message` to a non-null value, `send_request`
raises the taxonomy member mapped to that status code (400 →
`BadRequestException`, 403 → `ForbiddenException`, 404 →
`NotFoundException`), carrying exactly the value of the `message` field. -/
theorem send_request_mapped_status_with_message (api_url : String)
    (timeout : Nat) (path : String) (json_data : Option Json)
    (method : String) (sc : Nat) (content : String)
    (fields : List (String × Json)) (v : Json)
    (hm : method = "GET" ∨ method = "DELETE" ∨ method = "POST")
    (hv : lookupField fields "message" = some v) (hnn : v ≠ Json.null) :
    (sc = 400 →
      (send_request (stubTransport ⟨sc, content, some (Json.obj fields)⟩)
          api_url timeout path json_data method).1 =
        Except.error (PyExn.badRequestException v)) ∧
    (sc = 403 →
      (send_request (stubTransport ⟨sc, content, some (Json.obj fields)⟩)
          api_url timeout path json_data method).1 =
        Except.error (PyExn.forbiddenException v)) ∧
    (sc = 404 →
      (send_request (stubTransport ⟨sc, content, some (Json.obj fields)⟩)
          api_url timeout path json_data method).1 =
        Except.error (PyExn.notFoundException v)) := by
  have hget := pyGetOrNone_eq_some fields "message" v hv hnn
  rcases hm with h | h | h <;> subst h <;>
    refine ⟨fun hc => ?_, fun hc => ?_, fun hc => ?_⟩ <;> subst hc <;>
    simp [send_request, handle_wire, stubTransport, handle_response,
      API_EXCEPTIONS, hget]

/-- Witness for C1: the spec's end-to-end scenario 3, a 404 with message
"Scan not found" raises `NotFoundException` with exactly that message. -/
theorem send_request_mapped_status_with_message_witness :
    (send_request
        (stubTransport ⟨404, "",
          some (Json.obj [("message", Json.str "Scan not found")])⟩)
        "http://127.0.0.1:5000/" 5 "/scans/0/" none "GET").1 =
      Except.error (PyExn.notFoundException (Json.str "Scan not found")) :=
  (send_request_mapped_status_with_message "http://127.0.0.1:5000/" 5
    "/scans/0/" none "GET" 404 "" [("message", Json.str "Scan not found")]
    (Json.str "Scan not found") (Or.inl rfl) rfl (by simp)).2.2 rfl

/-- C6: for every response whose raw body is not valid JSON, `send_request`
raises the Generic `APIException`, and the message contains the first 20
bytes of the raw body and the issue-tracking URL. -/
theorem send_request_non_json_body (api_url : String) (timeout : Nat)
    (path : String) (json_data : Option Json) (method : String)
    (sc : Nat) (content : String)
    (hm : method = "GET" ∨ method = "DELETE" ∨ method = "POST") :
    ∃ m, (send_request (stubTransport ⟨sc, content, none⟩) api_url timeout
        path json_data method).1 = Except.error (PyExn.apiException m) ∧
      strContains m (content.take 20) = true ∧
      strContains m ISSUE_URL = true := by
  refine ⟨nonJsonMsg content, ?_, nonJsonMsg_contains_take content,
    nonJsonMsg_contains_url content⟩
  rcases hm with h | h | h <;> subst h <;>
    simp [send_request, handle_wire, stubTransport, handle_response]

/-- Witness for C6 on the non-JSON body `<html>error</html>`. -/
theorem send_request_non_json_body_witness :
    ∃ m, (send_request
        (stubTransport ⟨200, "<html>error</html>", none⟩)
        "http://127.0.0.1:5000/" 5 "/version" none "GET").1 =
      Except.error (PyExn.apiException m) ∧
      strContains m ("<html>error</html>".take 20) = true ∧
      strContains m ISSUE_URL = true :=
  send_request_non_json_body _ _ _ _ _ _ _ (Or.inl rfl)

/-- C9: for every response with status code 400, 403 or 404 whose parsed
JSON body is an object binding `message` to JSON `null`, `send_request`
treats the field as absent and raises the Generic `APIException`, not the
taxonomy member mapped to the status code. -/
theorem send_request_null_message_is_generic (api_url : String)
    (timeout : Nat) (path : String) (json_data : Option Json)
    (method : String) (sc : Nat) (content : String)
    (fields : List (String × Json))
    (hm : method = "GET" ∨ method = "DELETE" ∨ method = "POST")
    (hsc : sc = 400 ∨ sc = 403 ∨ sc = 404)
    (hv : lookupField fields "message" = some Json.null) :
    ∃ m, (send_request (stubTransport ⟨sc, content, some (Json.obj fields)⟩)
        api_url timeout path json_data method).1 =
      Except.error (PyExn.apiException m) := by
  have hget := pyGetOrNone_eq_none_of_null fields "message" hv
  refine ⟨missingMessageMsg sc (Json.obj fields), ?_⟩
  rcases hm with h | h | h <;> subst h <;>
    rcases hsc with hc | hc | hc <;> subst hc <;>
    simp [send_request, handle_wire, stubTransport, handle_response,
      API_EXCEPTIONS, hget]

/-- Witness for C9: a 403 with `message` bound to JSON null. -/
theorem send_request_null_message_is_generic_witness :
    ∃ m, (send_request
        (stubTransport ⟨403, "",
          some (Json.obj [("message", Json.null)])⟩)
        "http://127.0.0.1:5000/" 5 "/scans/" none "GET").1 =
      Except.error (PyExn.apiException m) :=
  send_request_null_message_is_generic _ _ _ _ _ _ _ _
    (Or.inl rfl) (Or.inr (Or.inl rfl)) rfl

/-- C5 counterexample: a 400 response whose parsed JSON body is a JSON array
— a body that lacks a `message` field — does not raise `APIException`: the
code calls `.get` on the parsed body, which for a non-dict raises
`AttributeError` instead. -/
theorem send_request_mapped_array_body_cx :
    (send_request (stubTransport ⟨400, "[]", some (Json.arr [])⟩)
        "http://127.0.0.1:5000/" 5 "/scans/" none "GET").1 =
      Except.error (PyExn.attributeError
        "\x27list\x27 object has no attribute \x27get\x27") := by
  rfl

/-- C5 (amended): for every response with status code 400, 403 or 404 whose
parsed JSON body is a JSON object lacking a `message` field, `send_request`
raises the Generic `APIException`, whose message contains the numeric status
code and a dump of the full JSON body. -/
theorem send_request_mapped_object_without_message (api_url : String)
    (timeout : Nat) (path : String) (json_data : Option Json)
    (method : String) (sc : Nat) (content : String)
    (fields : List (String × Json))
    (hm : method = "GET" ∨ method = "DELETE" ∨ method = "POST")
    (hsc : sc = 400 ∨ sc = 403 ∨ sc = 404)
    (hv : lookupField fields "message" = none) :
    ∃ m, (send_request (stubTransport ⟨sc, content, some (Json.obj fields)⟩)
        api_url timeout path json_data method).1 =
      Except.error (PyExn.apiException m) ∧
      strContains m (toString sc) = true ∧
      strContains m ((Json.obj fields).dumpsIndent 0) = true := by
  have hget := pyGetOrNone_eq_none_of_absent fields "message" hv
  refine ⟨missingMessageMsg sc (Json.obj fields), ?_,
    missingMessageMsg_contains_code sc (Json.obj fields),
    missingMessageMsg_contains_dump sc (Json.obj fields)⟩
  rcases hm with h | h | h <;> subst h <;>
    rcases hsc with hc | hc | hc <;> subst hc <;>
    simp [send_request, handle_wire, stubTransport, handle_response,
      API_EXCEPTIONS, hget]

/-- Witness for the amended C5: a 400 whose object body has no `message`. -/
theorem send_request_mapped_object_without_message_witness :
    ∃ m, (send_request
        (stubTransport ⟨400, "",
          some (Json.obj [("error", Json.str "bad")])⟩)
        "http://127.0.0.1:5000/" 5 "/scans/" none "GET").1 =
      Except.error (PyExn.apiException m) ∧
      strContains m (toString 400) = true ∧
      strContains m ((Json.obj [("error", Json.str "bad")]).dumpsIndent 0) =
        true :=
  send_request_mapped_object_without_message "http://127.0.0.1:5000/" 5
    "/scans/" none "GET" 400 "" [("error", Json.str "bad")]
    (Or.inl rfl) (Or.inl rfl) rfl

/-- C3 counterexample: when the transport raises (connection refused), the
exception escapes `send_request` as the transport-level exception itself,
not wrapped into `APIException` — the source has no handler around
`session.get`/`delete`/`post`. -/
theorem send_request_transport_exn_cx :
    (send_request (fun _ => TransportResult.exn "connection refused")
        "http://127.0.0.1:5000/" 5 "/version" none "GET").1 =
      Except.error (PyExn.requestException "connection refused") := by
  rfl

/-- C3 (amended): a transport-level exception propagates out of
`send_request` unwrapped; the wrapping into the Generic `APIException` with
the cause's description embedded happens one level up, at the
session-bootstrap boundary (`can_access_api`). -/
theorem send_request_transport_exn_propagates (desc api_url : String)
    (timeout : Nat) (path : String) (json_data : Option Json)
    (method : String)
    (hm : method = "GET" ∨ method = "DELETE" ∨ method = "POST") :
    (send_request (fun _ => TransportResult.exn desc) api_url timeout path
        json_data method).1 =
      Except.error (PyExn.requestException desc) ∧
    can_access_api (fun _ => TransportResult.exn desc) api_url timeout =
      Except.error (PyExn.apiException
        ("An exception was raised when connecting to REST API: \"" ++
          desc ++ "\"")) := by
  constructor
  · rcases hm with h | h | h <;> subst h <;>
      simp [send_request, handle_wire]
  · simp [can_access_api, get_version, send_request, handle_wire,
      PyExn.toStr]

/-- Witness for the amended C3 at a concrete timeout description. -/
theorem send_request_transport_exn_propagates_witness :
    (send_request (fun _ => TransportResult.exn "timeout")
        "http://127.0.0.1:5000/" 5 "/version" none "GET").1 =
      Except.error (PyExn.requestException "timeout") ∧
    can_access_api (fun _ => TransportResult.exn "timeout")
        "http://127.0.0.1:5000/" 5 =
      Except.error (PyExn.apiException
        ("An exception was raised when connecting to REST API: \"" ++
          "timeout" ++ "\"")) :=
  send_request_transport_exn_propagates "timeout" "http://127.0.0.1:5000/"
    5 "/version" none "GET" (Or.inl rfl)

lemma buildScans_of_lookups
    (entries : List (List (String × Json) × Json × Json))
    (h : ∀ e ∈ entries, lookupField e.1 "id" = some e.2.1 ∧
      lookupField e.1 "status" = some e.2.2) :
    buildScans (entries.map (fun e => Json.obj e.1)) =
      Except.ok (entries.map (fun e => ⟨e.2.1, e.2.2⟩)) := by
  induction entries with
  | nil => rfl
  | cons e rest ih =>
    have he := h e (List.mem_cons_self e rest)
    have hrest := ih (fun x hx => h x (List.mem_cons_of_mem e hx))
    simp [buildScans, pyIndex, he.1, he.2, hrest]

/-- C8 counterexample: when the listing request comes back with status 404
and a `message`-bearing body — a status code other than 200 — `get_scans`
does not raise the Generic `APIException`: `send_request` raises the mapped
`NotFoundException` first, and `get_scans` lets it propagate. -/
theorem get_scans_mapped_status_cx :
    get_scans
        (stubTransport ⟨404, "",
          some (Json.obj [("message", Json.str "Scan not found")])⟩)
        "http://127.0.0.1:5000/" 5 =
      Except.error (PyExn.notFoundException (Json.str "Scan not found")) := by
  rfl

/-- C8 (amended): when the listing request returns status 200 with a JSON
object binding `items` to a sequence of descriptors each carrying `id` and
`status` keys (in any key order, next to any other fields), `get_scans`
returns one `Scan` handle per descriptor, in order, with that descriptor's
id and status.  A non-200 status outside the mapped
set {400, 403, 404} raises the Generic `APIException` naming the code (a
mapped status instead propagates the exception `send_request` raised), and a
200 response with an object body lacking `items` raises the Generic
`APIException`. -/
theorem get_scans_spec :
    (∀ (api_url : String) (timeout : Nat) (content : String)
        (fields : List (String × Json))
        (entries : List (List (String × Json) × Json × Json)),
      (∀ e ∈ entries, lookupField e.1 "id" = some e.2.1 ∧
        lookupField e.1 "status" = some e.2.2) →
      pyGetOrNone fields "items" =
          some (Json.arr (entries.map (fun e => Json.obj e.1))) →
      get_scans (stubTransport ⟨200, content, some (Json.obj fields)⟩)
          api_url timeout =
        Except.ok (entries.map (fun e => ⟨e.2.1, e.2.2⟩))) ∧
    (∀ (api_url : String) (timeout : Nat) (content : String) (code : Nat)
        (body : Json),
      code ≠ 200 → code ≠ 400 → code ≠ 403 → code ≠ 404 →
      get_scans (stubTransport ⟨code, content, some body⟩) api_url timeout =
        Except.error (PyExn.apiException
          ("Failed to retrieve scans. Unexpected code " ++ toString code))) ∧
    (∀ (api_url : String) (timeout : Nat) (content : String)
        (fields : List (String × Json)),
      pyGetOrNone fields "items" = none →
      get_scans (stubTransport ⟨200, content, some (Json.obj fields)⟩)
          api_url timeout =
        Except.error (PyExn.apiException
          "Failed to retrieve scans, no \"items\" in JSON.")) := by
  refine ⟨?_, ?_, ?_⟩
  · intro api_url timeout content fields entries hdesc hitems
    simp [get_scans, send_request, handle_wire, stubTransport,
      handle_response, API_EXCEPTIONS, hitems, pyIterate,
      buildScans_of_lookups entries hdesc]
  · intro api_url timeout content code body h200 h400 h403 h404
    simp [get_scans, send_request, handle_wire, stubTransport,
      handle_response, API_EXCEPTIONS, h200, h400, h403, h404]
  · intro api_url timeout content fields hitems
    simp [get_scans, send_request, handle_wire, stubTransport,
      handle_response, API_EXCEPTIONS, hitems]

/-- Witness for the amended C8: the spec's end-to-end scenario 2 (a
descriptor with id 1 and status "Running", followed by one listing its keys
in the opposite order), an unmapped 500, and a 200 object body without
`items`. -/
theorem get_scans_spec_witness :
    get_scans
        (stubTransport ⟨200, "",
          some (Json.obj [("items", Json.arr
            [Json.obj [("id", Json.num 1), ("status", Json.str "Running")],
             Json.obj [("status", Json.str "Stopped"),
                       ("id", Json.num 2)]])])⟩)
        "http://127.0.0.1:5000/" 5 =
      Except.ok [⟨Json.num 1, Json.str "Running"⟩,
                 ⟨Json.num 2, Json.str "Stopped"⟩] ∧
    get_scans (stubTransport ⟨500, "", some (Json.obj [])⟩)
        "http://127.0.0.1:5000/" 5 =
      Except.error (PyExn.apiException
        ("Failed to retrieve scans. Unexpected code " ++ toString 500)) ∧
    get_scans (stubTransport ⟨200, "", some (Json.obj [("x", Json.null)])⟩)
        "http://127.0.0.1:5000/" 5 =
      Except.error (PyExn.apiException
        "Failed to retrieve scans, no \"items\" in JSON.") :=
  ⟨get_scans_spec.1 "http://127.0.0.1:5000/" 5 ""
      [("items", Json.arr
        [Json.obj [("id", Json.num 1), ("status", Json.str "Running")],
         Json.obj [("status", Json.str "Stopped"), ("id", Json.num 2)]])]
      [([("id", Json.num 1), ("status", Json.str "Running")],
          Json.num 1, Json.str "Running"),
       ([("status", Json.str "Stopped"), ("id", Json.num 2)],
          Json.num 2, Json.str "Stopped")]
      (by
        intro e he
        simp only [List.mem_cons, List.not_mem_nil, or_false] at he
        rcases he with rfl | rfl
        · exact ⟨rfl, rfl⟩
        · exact ⟨rfl, rfl⟩)
      rfl,
   get_scans_spec.2.1 "http://127.0.0.1:5000/" 5 "" 500 (Json.obj [])
      (by decide) (by decide) (by decide) (by decide),
   get_scans_spec.2.2 "http://127.0.0.1:5000/" 5 "" [("x", Json.null)] rfl⟩

/-- C2 counterexample: the version check never inspects the status code —
`get_version` discards it — so a remote answering status 500 (not 200) with
a `version`-bearing body lets construction succeed, contradicting
"construction succeeds only if the version-check call returns status 200". -/
theorem connection_init_succeeds_on_500_cx :
    Connection.init
        (stubTransport ⟨500, "",
          some (Json.obj [("version", Json.str "1.7.2")])⟩)
        "http://127.0.0.1:5000/" 5 =
      Except.ok ⟨"http://127.0.0.1:5000/", 5⟩ := by
  rfl

/-- C2 (amended): `Connection` construction succeeds if and only if the
version request completes without raising (any status code outside the
mapped set {400, 403, 404} with a JSON body qualifies — the status code is
never compared against 200) and the Python membership test `'version' in
body` succeeds.  Every other outcome fails with the Generic `APIException`
and no `Connection` value is produced: an exception raised by the version
request — a connection error, a mapped status, a non-JSON body — is caught
and wrapped with the cause's description embedded, and a body the
membership test reports as lacking `version` raises the "unexpected
response when connecting" failure. -/
theorem connection_init_spec (transport : Transport) (api_url : String)
    (timeout : Nat) :
    ((∃ c, Connection.init transport api_url timeout = Except.ok c) ↔
      (∃ body, get_version transport api_url timeout = Except.ok body ∧
        pyContains body "version" = Except.ok true)) ∧
    (∀ e, get_version transport api_url timeout = Except.error e →
      Connection.init transport api_url timeout =
        Except.error (PyExn.apiException
          ("An exception was raised when connecting to REST API: \"" ++
            e.toStr ++ "\""))) ∧
    (∀ body, get_version transport api_url timeout = Except.ok body →
      pyContains body "version" = Except.ok false →
      Connection.init transport api_url timeout =
        Except.error (PyExn.apiException
          "Unexpected HTTP response when connecting to REST API")) := by
  refine ⟨?_, ?_, ?_⟩
  · rcases hgv : get_version transport api_url timeout with e | body
    · simp [Connection.init, can_access_api, hgv]
    · rcases hpc : pyContains body "version" with e | b
      · simp [Connection.init, can_access_api, hgv, hpc]
      · cases b <;> simp [Connection.init, can_access_api, hgv, hpc]
  · intro e he
    simp [Connection.init, can_access_api, he]
  · intro body hb hc
    simp [Connection.init, can_access_api, hb, hc]

/-- Witness for the amended C2: the spec's end-to-end scenario 1 (a stub
server answering the version path with a `version`-bearing body), a
connection-refused transport wrapped as the Generic failure, and a 200
object body lacking `version`. -/
theorem connection_init_spec_witness :
    (∃ c, Connection.init
        (stubTransport ⟨200, "",
          some (Json.obj [("version", Json.str "1.7.2")])⟩)
        "http://127.0.0.1:5000/" 5 = Except.ok c) ∧
    Connection.init (fun _ => TransportResult.exn "connection refused")
        "http://127.0.0.1:5000/" 5 =
      Except.error (PyExn.apiException
        ("An exception was raised when connecting to REST API: \"" ++
          "connection refused" ++ "\"")) ∧
    Connection.init
        (stubTransport ⟨200, "", some (Json.obj [("branch", Json.str "x")])⟩)
        "http://127.0.0.1:5000/" 5 =
      Except.error (PyExn.apiException
        "Unexpected HTTP response when connecting to REST API") :=
  ⟨(connection_init_spec
      (stubTransport ⟨200, "",
        some (Json.obj [("version", Json.str "1.7.2")])⟩)
      "http://127.0.0.1:5000/" 5).1.mpr
    ⟨Json.obj [("version", Json.str "1.7.2")], rfl, rfl⟩,
   (connection_init_spec (fun _ => TransportResult.exn "connection refused")
      "http://127.0.0.1:5000/" 5).2.1
    (PyExn.requestException "connection refused") rfl,
   (connection_init_spec
      (stubTransport ⟨200, "", some (Json.obj [("branch", Json.str "x")])⟩)
      "http://127.0.0.1:5000/" 5).2.2
    (Json.obj [("branch", Json.str "x")]) rfl rfl⟩
